import Mathlib

/-!
# wpt.fyi: the `wpt-header` component

A verification development for `webapp/components/wpt-header.js`.

The component is a Polymer element whose whole behaviour is its static
`template`, its tag name `is` and its `properties` table.  The template is
embedded as a syntax tree, node for node (text nodes and the comment
included), and the stamping that Polymer performs on it is embedded as the
function `stamp`:

* a literal attribute `name="text"` yields the string `text`;
* a one-way binding `name="[[path]]"` yields the host's value at `path`,
  as it is (a property binding performs no conversion);
* `<template is="dom-if" if="[[path]]">` yields its content, stamped, when
  the bound value is truthy in the JavaScript sense, and nothing otherwise.

The two feature flags `githubLogin` and `processorTab` are supplied by the
`WPTFlags` mixin, which is not part of the component: their values are inputs
of the rendering, and for the property tables the mixin is modelled from the
specification, as adding the two flags as boolean properties.
-/

namespace WPT

/-! ## JavaScript values -/

/-- The values a host property can hold.  Numbers are the integers and `NaN`:
truthiness separates only zero and `NaN` from the other numbers. -/
inductive JSValue where
  | undefined
  | null
  | boolean (b : Bool)
  | number (n : Int)
  | nan
  | string (s : String)
  | object (ref : Nat)
  deriving DecidableEq, Repr

/-- JavaScript truthiness (`ToBoolean`): what `dom-if` tests its `if` with. -/
def JSValue.truthy : JSValue → Bool
  | .undefined => false
  | .null => false
  | .boolean b => b
  | .number n => n != 0
  | .nan => false
  | .string s => s != ""
  | .object _ => true

/-- An absent reference: `undefined` or `null`. -/
def JSValue.absent : JSValue → Bool
  | .undefined => true
  | .null => true
  | _ => false

/-! ## Templates and their output -/

/-- The value of an attribute in a template: literal text, or a one-way
binding `[[path]]` to a property of the host. -/
inductive AttrValue where
  | literal (s : String)
  | binding (path : String)
  deriving DecidableEq, Repr

/-- The nodes of a template: the markup as written. -/
inductive Template where
  | element (tag : String) (attrs : List (String × AttrValue)) (children : List Template)
  | text (s : String)
  | comment (s : String)

/-- The nodes of the rendered output. -/
inductive Dom where
  | element (tag : String) (attrs : List (String × JSValue)) (children : List Dom)
  | text (s : String)
  | comment (s : String)

/-- The instance state of a `wpt-header`: the two flags of the `WPTFlags`
mixin and the component's own `user` property. -/
structure Host where
  githubLogin : JSValue
  processorTab : JSValue
  user : JSValue

/-- Reading a property of the host by name; a name that is not a property
reads as `undefined`. -/
def Host.get (h : Host) (path : String) : JSValue :=
  if path = "githubLogin" then h.githubLogin
  else if path = "processorTab" then h.processorTab
  else if path = "user" then h.user
  else .undefined

/-- The value an attribute takes on the stamped element. -/
def evalAttr (h : Host) : AttrValue → JSValue
  | .literal s => .string s
  | .binding path => h.get path

/-- The attributes of a stamped element. -/
def evalAttrs (h : Host) : List (String × AttrValue) → List (String × JSValue)
  | [] => []
  | (name, v) :: rest => (name, evalAttr h v) :: evalAttrs h rest

/-- The value of the attribute `name` in a template element, if written. -/
def attrOf (name : String) : List (String × AttrValue) → Option AttrValue
  | [] => none
  | (k, v) :: rest => if k = name then some v else attrOf name rest

/-- Whether an element is `<template is="dom-if">`. -/
def isDomIf (tag : String) (attrs : List (String × AttrValue)) : Bool :=
  tag == "template" && attrOf "is" attrs == some (.literal "dom-if")

/-- The condition of a `dom-if`: the value of its `if` attribute. -/
def domIfCondition (h : Host) (attrs : List (String × AttrValue)) : JSValue :=
  match attrOf "if" attrs with
  | some v => evalAttr h v
  | none => .undefined

mutual
/-- Stamping one template node for a host. -/
def stamp (h : Host) : Template → List Dom
  | .text s => [.text s]
  | .comment s => [.comment s]
  | .element tag attrs children =>
    if isDomIf tag attrs then
      if (domIfCondition h attrs).truthy then stampList h children else []
    else [.element tag (evalAttrs h attrs) (stampList h children)]
/-- Stamping a sequence of template nodes, in document order. -/
def stampList (h : Host) : List Template → List Dom
  | [] => []
  | t :: ts => stamp h t ++ stampList h ts
end

/-! ## The component -/

namespace WPTHeader

/-- The text of the `<style>` element. -/
def styleText : String :=
  "\n      * \x7b\n        margin: 0;\n        padding: 0;\n      \x7d\n      img \x7b\n        display: inline-block;\n        height: 32px;\n        margin-right: 16px;\n        width: 32px;\n      \x7d\n      a \x7b\n        text-decoration: none;\n        color: #0d5de6;\n      \x7d\n      header \x7b\n        padding: 0.5em 0;\n      \x7d\n      header h1 \x7b\n        font-size: 1.5em;\n        line-height: 1.5em;\n        margin-bottom: 0.2em;\n        display: flex;\n        align-items: center;\n      \x7d\n      header > div \x7b\n        align-items: center;\n        display: flex;\n        justify-content: space-between;\n      \x7d\n      header nav a \x7b\n        margin-right: 1em;\n      \x7d\n      #caveat \x7b\n        margin: 0.5em 0;\n      \x7d\n    "

/-- The text of the `<info-banner>` element. -/
def caveatText : String :=
  "\n        wpt.fyi is a work in progress. The reported results do not necessarily reflect the true capabilities of each web browser, so they should not be used evaluate or compare feature support.\n      "

/-- The markup returned by `static get template()`. -/
def template : List Template :=
  [ .text "\n    ",
    .element "style" [] [.text styleText],
    .text "\n    ",
    .element "header" []
      [ .text "\n      ",
        .element "div" []
          [ .text "\n        ",
            .element "h1" []
              [ .text "\n          ",
                .element "img" [("src", .literal "/static/logo.svg")] [],
                .text "\n          ",
                .element "a" [("href", .literal "/")] [.text "web-platform-tests dashboard"],
                .text "\n        " ],
            .text "\n        ",
            .element "template" [("is", .literal "dom-if"), ("if", .binding "githubLogin")]
              [ .text "\n          ",
                .element "gh-login" [("user", .binding "user")] [],
                .text "\n        " ],
            .text "\n      " ],
        .text "\n\n      ",
        .element "nav" []
          [ .text "\n        ",
            .comment " TODO: handle onclick with wpt-results.navigate if available ",
            .text "\n        ",
            .element "a" [("href", .literal "/")] [.text "Latest Run"],
            .text "\n        ",
            .element "a" [("href", .literal "/runs")] [.text "Recent Runs"],
            .text "\n        ",
            .element "a" [("href", .literal "/insights")] [.text "Insights"],
            .text "\n        ",
            .element "template" [("is", .literal "dom-if"), ("if", .binding "processorTab")]
              [ .text "\n          ",
                .element "a" [("href", .literal "/status")] [.text "Processor"],
                .text "\n        " ],
            .text "\n        ",
            .element "a" [("href", .literal "/about")] [.text "About"],
            .text "\n        ",
            .element "a" [("href", .literal "https://github.com/web-platform-tests/wpt.fyi")]
              [.text "GitHub Source"],
            .text "\n      " ],
        .text "\n      ",
        .element "info-banner" [("id", .literal "caveat"), ("type", .literal "error")]
          [.text caveatText],
        .text "\n    " ],
    .text "\n" ]

/-- The tag name returned by `static get is()`. -/
def is : String := "wpt-header"

/-- The constructors a Polymer property can be declared with. -/
inductive PropertyType where
  | Boolean
  | Date
  | Number
  | String
  | Array
  | Object
  deriving DecidableEq, Repr

/-- The table returned by `static get properties()`. -/
def properties : List (String × PropertyType) :=
  [("user", .String)]

/-- The rendered output of a `wpt-header` in a given state. -/
def render (h : Host) : List Dom :=
  stampList h template


end WPTHeader

/-! ## Observations on the output -/

mutual
/-- The node and everything below it, in document order. -/
def Dom.nodes : Dom → List Dom
  | .element tag attrs children => .element tag attrs children :: nodesOf children
  | .text s => [.text s]
  | .comment s => [.comment s]
/-- All the nodes of an output, in document order. -/
def nodesOf : List Dom → List Dom
  | [] => []
  | d :: ds => d.nodes ++ nodesOf ds
end

/-- Whether a node is an element with the given tag. -/
def Dom.hasTag (tag : String) : Dom → Bool
  | .element t _ _ => t == tag
  | _ => false

/-- The value of the attribute `name` on a stamped element, if set. -/
def valueOf (name : String) : List (String × JSValue) → Option JSValue
  | [] => none
  | (k, v) :: rest => if k = name then some v else valueOf name rest

/-- The target of a link: the `href` of an `<a>` element. -/
def Dom.linkTarget : Dom → Option JSValue
  | .element tag attrs _ => if tag = "a" then valueOf "href" attrs else none
  | _ => none

/-- The children of an element. -/
def Dom.children : Dom → List Dom
  | .element _ _ cs => cs
  | _ => []

/-- Whether the output contains an element with the given tag, at any depth. -/
def containsTag (tag : String) (out : List Dom) : Bool :=
  (nodesOf out).any (Dom.hasTag tag)

/-- The elements with the given tag, at any depth, in document order. -/
def elementsByTag (tag : String) (out : List Dom) : List Dom :=
  (nodesOf out).filter (Dom.hasTag tag)

/-- The link elements of an output, in document order. -/
def links (out : List Dom) : List Dom :=
  (nodesOf out).filter (fun d => d.linkTarget.isSome)

/-- The targets of the links of an output, in document order. -/
def linkTargets (out : List Dom) : List JSValue :=
  (nodesOf out).filterMap Dom.linkTarget

/-- Whether the output contains a link to the given target. -/
def containsLink (href : String) (out : List Dom) : Bool :=
  (linkTargets out).contains (.string href)

/-- The content of the `<nav>` elements of an output: their children. -/
def navContent (out : List Dom) : List Dom :=
  (elementsByTag "nav" out).flatMap Dom.children

/-- The links inside the `<nav>` elements of an output, in document order. -/
def navLinks (out : List Dom) : List Dom :=
  links (navContent out)

/-- Whether a node is a link to the given target. -/
def Dom.isLinkTo (href : String) (d : Dom) : Bool :=
  d.linkTarget == some (.string href)

/-- Whether a node is layout text: a text node of white space only. -/
def Dom.isLayoutText : Dom → Bool
  | .text s => s.data.all Char.isWhitespace
  | _ => false

mutual
/-- The node with the nodes selected by `drop` removed below it; nothing when
the node itself is selected. -/
def Dom.prune (drop : Dom → Bool) : Dom → List Dom
  | .element tag attrs children =>
    if drop (.element tag attrs children) then []
    else [.element tag attrs (pruneAll drop children)]
  | .text s => if drop (.text s) then [] else [.text s]
  | .comment s => if drop (.comment s) then [] else [.comment s]
/-- The output with the nodes selected by `drop` removed, at any depth. -/
def pruneAll (drop : Dom → Bool) : List Dom → List Dom
  | [] => []
  | d :: ds => d.prune drop ++ pruneAll drop ds
end

/-- The text of a string after its leading white space. -/
def trimmedStart (s : String) : List Char :=
  s.data.dropWhile Char.isWhitespace

/-- Whether the text `s`, leading white space apart, begins with `start`. -/
def beginsWith (start s : String) : Bool :=
  start.data.isPrefixOf (trimmedStart s)

/-! ## Observations on the template -/

/-- Whether a template node is an element with the given tag. -/
def Template.hasTag (tag : String) : Template → Bool
  | .element t _ _ => t == tag
  | _ => false

mutual
/-- The template node and everything below it, in document order. -/
def Template.nodes : Template → List Template
  | .element tag attrs children => .element tag attrs children :: templateNodesOf children
  | .text s => [.text s]
  | .comment s => [.comment s]
/-- All the nodes of a template, in document order. -/
def templateNodesOf : List Template → List Template
  | [] => []
  | t :: ts => t.nodes ++ templateNodesOf ts
end

mutual
/-- The nodes below a template node that lie inside a `dom-if`. -/
def Template.conditionalNodes : Template → List Template
  | .element tag attrs children =>
    if isDomIf tag attrs then templateNodesOf children else conditionalNodesOf children
  | .text _ => []
  | .comment _ => []
/-- The nodes of a template that lie inside a `dom-if`: the conditional
branches. -/
def conditionalNodesOf : List Template → List Template
  | [] => []
  | t :: ts => t.conditionalNodes ++ conditionalNodesOf ts
end

/-! ## Property tables -/

namespace WPTHeader

/-- The type a property table declares for the property `name`, if any. -/
def typeOf : List (String × PropertyType) → String → Option PropertyType
  | [], _ => none
  | (key, type) :: rest, name => if key = name then some type else typeOf rest name

/-- Whether a property table declares the property `name`. -/
def declares (table : List (String × PropertyType)) (name : String) : Bool :=
  (typeOf table name).isSome

/-- Setting one entry of a table, as `Object.assign` does key by key: an entry
of that name keeps its place and takes the new type, a new name goes last. -/
def setProperty :
    List (String × PropertyType) → String × PropertyType → List (String × PropertyType)
  | [], entry => [entry]
  | (key, type) :: rest, entry =>
    if key = entry.1 then (key, entry.2) :: rest else (key, type) :: setProperty rest entry

/-- The table Polymer builds for a class, `Object.assign` of the table of the
class it extends and of its own: the inherited entries first, one entry per
name, an own entry taking the place of an inherited one of the same name. -/
def assign (inherited own : List (String × PropertyType)) : List (String × PropertyType) :=
  own.foldl setProperty inherited

/-- Modelled from the spec: `wpt-flags.js`, which defines the `WPTFlags`
mixin, is not among the sources.  The spec has the mixin supply two boolean
properties, the feature flags; they bear the names the template binds.  The
mixin gives the class it is applied to, of table `superClass`, those two
properties. -/
def WPTFlags (superClass : List (String × PropertyType)) : List (String × PropertyType) :=
  assign superClass [("githubLogin", .Boolean), ("processorTab", .Boolean)]

/-- The table in force for `class WPTHeader extends WPTFlags(PolymerElement)`,
the table of `PolymerElement` being the input `base`. -/
def classProperties (base : List (String × PropertyType)) : List (String × PropertyType) :=
  assign (WPTFlags base) properties

/-- The link `<a href=target>label</a>` as it appears in the output. -/
def anchor (target label : String) : Dom :=
  .element "a" [("href", .string target)] [.text label]

end WPTHeader

/-! ## Theorems -/

namespace WPTHeader

/-! ### The output, flag by flag -/

/-- The output depends on the two flags through their truthiness only. -/
theorem render_truthy (h : Host) :
    render h = render ⟨.boolean h.githubLogin.truthy, .boolean h.processorTab.truthy, h.user⟩ := by
  simp [render, template, stampList, stamp, isDomIf, attrOf, domIfCondition, evalAttr, evalAttrs,
    Host.get, JSValue.truthy]

/-- The same, with the three inputs named. -/
theorem render_flags (githubLogin processorTab user : JSValue) :
    render ⟨githubLogin, processorTab, user⟩
      = render ⟨.boolean githubLogin.truthy, .boolean processorTab.truthy, user⟩ :=
  render_truthy ⟨githubLogin, processorTab, user⟩

/-- The login widget is in the output exactly when `githubLogin` is truthy. -/
theorem containsTag_ghLogin (h : Host) :
    containsTag "gh-login" (render h) = h.githubLogin.truthy := by
  rw [render_truthy h]
  cases h.githubLogin.truthy <;> cases h.processorTab.truthy <;> rfl

/-- The login widgets of the output. -/
theorem elementsByTag_ghLogin (h : Host) :
    elementsByTag "gh-login" (render h)
      = if h.githubLogin.truthy then [.element "gh-login" [("user", h.user)] []] else [] := by
  rw [render_truthy h]
  cases h.githubLogin.truthy <;> cases h.processorTab.truthy <;> rfl

/-- The `/status` link is in the output exactly when `processorTab` is truthy. -/
theorem containsLink_status (h : Host) :
    containsLink "/status" (render h) = h.processorTab.truthy := by
  rw [render_truthy h]
  cases h.githubLogin.truthy <;> cases h.processorTab.truthy <;> rfl

/-- The link targets of the output, in document order. -/
theorem linkTargets_render (h : Host) :
    linkTargets (render h) =
      [.string "/", .string "/", .string "/runs", .string "/insights"]
        ++ (if h.processorTab.truthy then [.string "/status"] else [])
        ++ [.string "/about", .string "https://github.com/web-platform-tests/wpt.fyi"] := by
  rw [render_truthy h]
  cases h.githubLogin.truthy <;> cases h.processorTab.truthy <;> rfl

set_option maxHeartbeats 1000000 in
/-- The links of the navigation bar, in document order. -/
theorem navLinks_render (h : Host) :
    navLinks (render h) =
      [anchor "/" "Latest Run", anchor "/runs" "Recent Runs", anchor "/insights" "Insights"]
        ++ (if h.processorTab.truthy then [anchor "/status" "Processor"] else [])
        ++ [anchor "/about" "About",
            anchor "https://github.com/web-platform-tests/wpt.fyi" "GitHub Source"] := by
  rw [render_truthy h]
  cases h.githubLogin.truthy <;> cases h.processorTab.truthy <;> rfl

/-- The banners of the output. -/
theorem elementsByTag_infoBanner (h : Host) :
    elementsByTag "info-banner" (render h)
      = [.element "info-banner" [("id", .string "caveat"), ("type", .string "error")]
          [.text caveatText]] := by
  rw [render_truthy h]
  cases h.githubLogin.truthy <;> cases h.processorTab.truthy <;> rfl

/-- The elements inside the conditional branches of the template are the login
widget and the `/status` link, and no other. -/
theorem conditional_elements :
    (conditionalNodesOf template).filterMap
        (fun t => match t with
          | .element tag attrs _ => some (tag, attrs)
          | _ => none)
      = [("gh-login", [("user", .binding "user")]), ("a", [("href", .literal "/status")])] := by
  rfl

set_option maxHeartbeats 1000000 in
/-- With the login widgets removed, the output does not depend on `user`. -/
theorem pruneAll_ghLogin_user (githubLogin processorTab user user2 : JSValue) :
    pruneAll (Dom.hasTag "gh-login") (render ⟨githubLogin, processorTab, user⟩)
      = pruneAll (Dom.hasTag "gh-login") (render ⟨githubLogin, processorTab, user2⟩) := by
  rw [render_flags githubLogin processorTab user, render_flags githubLogin processorTab user2]
  cases githubLogin.truthy <;> cases processorTab.truthy <;> rfl

set_option maxHeartbeats 1000000 in
/-- With the `/status` links and the layout text removed, the output does not
depend on `processorTab`. -/
theorem pruneAll_status_processorTab (githubLogin processorTab processorTab2 user : JSValue) :
    pruneAll Dom.isLayoutText
        (pruneAll (Dom.isLinkTo "/status") (render ⟨githubLogin, processorTab, user⟩))
      = pruneAll Dom.isLayoutText
        (pruneAll (Dom.isLinkTo "/status") (render ⟨githubLogin, processorTab2, user⟩)) := by
  rw [render_flags githubLogin processorTab user, render_flags githubLogin processorTab2 user]
  cases githubLogin.truthy <;> cases processorTab.truthy <;> cases processorTab2.truthy <;> rfl

set_option maxHeartbeats 1000000 in
/-- Without the `processorTab` flag there is no `/status` link to remove. -/
theorem pruneAll_status_off (githubLogin processorTab user : JSValue)
    (hoff : processorTab.truthy = false) :
    pruneAll (Dom.isLinkTo "/status") (render ⟨githubLogin, processorTab, user⟩)
      = render ⟨githubLogin, processorTab, user⟩ := by
  rw [render_flags githubLogin processorTab user, hoff]
  cases githubLogin.truthy <;> rfl

set_option maxHeartbeats 1000000 in
/-- Outside the navigation bar the output does not depend on `processorTab`. -/
theorem pruneAll_nav_processorTab (githubLogin processorTab processorTab2 user : JSValue) :
    pruneAll (Dom.hasTag "nav") (render ⟨githubLogin, processorTab, user⟩)
      = pruneAll (Dom.hasTag "nav") (render ⟨githubLogin, processorTab2, user⟩) := by
  rw [render_flags githubLogin processorTab user, render_flags githubLogin processorTab2 user]
  cases githubLogin.truthy <;> cases processorTab.truthy <;> cases processorTab2.truthy <;> rfl

set_option maxHeartbeats 1000000 in
/-- The content of the navigation bar with `processorTab` set is the content
without it, with the stamped branch after the ninth node. -/
theorem navContent_processorTab (githubLogin processorTab processorTab2 user : JSValue)
    (hon : processorTab.truthy = true) (hoff : processorTab2.truthy = false) :
    navContent (render ⟨githubLogin, processorTab, user⟩)
      = (navContent (render ⟨githubLogin, processorTab2, user⟩)).take 9
          ++ [.text "\n          ", anchor "/status" "Processor", .text "\n        "]
          ++ (navContent (render ⟨githubLogin, processorTab2, user⟩)).drop 9 := by
  rw [render_flags githubLogin processorTab user, render_flags githubLogin processorTab2 user,
    hon, hoff]
  cases githubLogin.truthy <;> rfl

/-- Without the `githubLogin` flag the output does not depend on `user`. -/
theorem render_login_off (githubLogin processorTab user user2 : JSValue)
    (hoff : githubLogin.truthy = false) :
    render ⟨githubLogin, processorTab, user⟩ = render ⟨githubLogin, processorTab, user2⟩ := by
  rw [render_flags githubLogin processorTab user, render_flags githubLogin processorTab user2, hoff]
  cases processorTab.truthy <;> rfl

/-- The type of a name after one entry is set: the new type for the name set,
the former type for any other. -/
theorem typeOf_setProperty (table : List (String × PropertyType))
    (entry : String × PropertyType) (name : String) :
    typeOf (setProperty table entry) name
      = if entry.1 = name then some entry.2 else typeOf table name := by
  induction table with
  | nil => simp [setProperty, typeOf]
  | cons head rest ih =>
    obtain ⟨key, type⟩ := head
    by_cases hkey : key = entry.1
    · subst hkey
      by_cases hname : entry.1 = name <;> simp [setProperty, typeOf, hname]
    · by_cases hentry : entry.1 = name
      · have hkn : ¬ key = name := fun h => hkey (h.trans hentry.symm)
        simp [setProperty, typeOf, hkey, hentry, hkn, ih]
      · simp [setProperty, typeOf, hkey, hentry, ih]

/-! ### The claims -/

/-- C1: for every value of the `githubLogin` flag, of the `processorTab` flag
and of `user`, the rendered output contains the `gh-login` widget if and only
if `githubLogin` is truthy. -/
theorem login_widget_iff_githubLogin (githubLogin processorTab user : JSValue) :
    containsTag "gh-login" (render ⟨githubLogin, processorTab, user⟩) = true
      ↔ githubLogin.truthy = true := by
  rw [containsTag_ghLogin]

/-- C2: for every value of the `processorTab` flag, of the `githubLogin` flag
and of `user`, the rendered output contains a link whose `href` is `/status`
if and only if `processorTab` is truthy. -/
theorem status_link_iff_processorTab (githubLogin processorTab user : JSValue) :
    containsLink "/status" (render ⟨githubLogin, processorTab, user⟩) = true
      ↔ processorTab.truthy = true := by
  rw [containsLink_status]

/-- C3: for every combination of the two flags and every `user`, the rendered
output contains a link to each of `/`, `/runs`, `/insights`, `/about` and
`https://github.com/web-platform-tests/wpt.fyi`. -/
theorem static_links_always_present (githubLogin processorTab user : JSValue) :
    containsLink "/" (render ⟨githubLogin, processorTab, user⟩) = true
      ∧ containsLink "/runs" (render ⟨githubLogin, processorTab, user⟩) = true
      ∧ containsLink "/insights" (render ⟨githubLogin, processorTab, user⟩) = true
      ∧ containsLink "/about" (render ⟨githubLogin, processorTab, user⟩) = true
      ∧ containsLink "https://github.com/web-platform-tests/wpt.fyi"
          (render ⟨githubLogin, processorTab, user⟩) = true := by
  simp only [containsLink, linkTargets_render]
  cases processorTab.truthy <;> exact ⟨rfl, rfl, rfl, rfl, rfl⟩

/-- C4: for every `user`, when `githubLogin` is truthy the output has exactly
one `gh-login` widget, and its only attribute is `user`, holding the value of
the component's `user` property as it is. -/
theorem user_forwarded_unchanged (githubLogin processorTab user : JSValue)
    (hlogin : githubLogin.truthy = true) :
    elementsByTag "gh-login" (render ⟨githubLogin, processorTab, user⟩)
      = [.element "gh-login" [("user", user)] []] := by
  rw [elementsByTag_ghLogin]
  simp only [hlogin, if_true]

/-- Witness of C4: the user `"octocat"` with the flag set to `true`. -/
theorem user_forwarded_unchanged_witness :
    (JSValue.boolean true).truthy = true
      ∧ elementsByTag "gh-login" (render ⟨.boolean true, .boolean false, .string "octocat"⟩)
          = [.element "gh-login" [("user", .string "octocat")] []] :=
  ⟨rfl, user_forwarded_unchanged (.boolean true) (.boolean false) (.string "octocat") rfl⟩

/-- C5 as stated fails: with `githubLogin` set and `user` undefined, the
`gh-login` widget is rendered all the same. -/
theorem absent_user_still_renders_login :
    (JSValue.undefined.absent = true
        ∧ containsTag "gh-login" (render ⟨.boolean true, .boolean false, .undefined⟩) = true)
      ∧ ¬ (∀ githubLogin processorTab user : JSValue, user.absent = true →
            containsTag "gh-login" (render ⟨githubLogin, processorTab, user⟩) = false) := by
  refine ⟨⟨rfl, containsTag_ghLogin _⟩, ?_⟩
  intro hall
  have hfalse := hall (.boolean true) (.boolean false) .undefined rfl
  rw [containsTag_ghLogin] at hfalse
  exact Bool.noConfusion hfalse

/-- C5, amended: when `user` is absent (`undefined` or `null`), the output
lacks the `gh-login` widget if and only if `githubLogin` is falsy: the flag
alone decides, and an absent `user` omits nothing. -/
theorem absent_user_login_decided_by_flag (githubLogin processorTab user : JSValue)
    (_habsent : user.absent = true) :
    containsTag "gh-login" (render ⟨githubLogin, processorTab, user⟩) = false
      ↔ githubLogin.truthy = false := by
  rw [containsTag_ghLogin]

/-- Witness of C5, amended: a `null` user with the login flag off. -/
theorem absent_user_login_decided_by_flag_witness :
    JSValue.null.absent = true
      ∧ (containsTag "gh-login" (render ⟨.boolean false, .boolean true, .null⟩) = false
          ↔ (JSValue.boolean false).truthy = false) :=
  ⟨rfl, absent_user_login_decided_by_flag (.boolean false) (.boolean true) .null rfl⟩

/-- C6: for every combination of the two flags and every `user`, the output
holds one `info-banner` element, with `id` `caveat`, `type` `error` and the
fixed disclaimer as its text; that text, leading white space apart, begins
with `wpt.fyi is a work in progress.`; and in the template no `info-banner`
lies inside a conditional branch. -/
theorem banner_always_rendered (githubLogin processorTab user : JSValue) :
    elementsByTag "info-banner" (render ⟨githubLogin, processorTab, user⟩)
        = [.element "info-banner" [("id", .string "caveat"), ("type", .string "error")]
            [.text caveatText]]
      ∧ beginsWith "wpt.fyi is a work in progress." caveatText = true
      ∧ (conditionalNodesOf template).any (Template.hasTag "info-banner") = false := by
  refine ⟨elementsByTag_infoBanner _, ?_, ?_⟩
  · decide
  · decide

/-- C7: for every combination of the two flags and every `user`, the link
targets of the output are exactly `/`, `/runs`, `/insights`, `/about` and
`https://github.com/web-platform-tests/wpt.fyi`, with `/status` added when
`processorTab` is truthy, and no other. -/
theorem link_targets_exactly (githubLogin processorTab user : JSValue) (target : JSValue) :
    target ∈ linkTargets (render ⟨githubLogin, processorTab, user⟩)
      ↔ target ∈ [JSValue.string "/", .string "/runs", .string "/insights", .string "/about",
            .string "https://github.com/web-platform-tests/wpt.fyi"]
          ++ (if processorTab.truthy then [JSValue.string "/status"] else []) := by
  rw [linkTargets_render]
  cases processorTab.truthy
  · simp
  · simp
    tauto

/-- C8: the component's own property table has exactly one entry: it declares
`user` and no other name, and declares it of type `String`; in particular it
declares neither `githubLogin` nor `processorTab`.  In the table of the class,
`WPTFlags(PolymerElement)` extended with the own table, both flags are
declared, as the booleans of the `WPTFlags` mixin, next to `user`; the same
class without the mixin declares a flag only if `PolymerElement` does. -/
theorem properties_only_user (base : List (String × PropertyType)) :
    properties = [("user", PropertyType.String)]
      ∧ properties.length = 1
      ∧ (∀ name, declares properties name = true ↔ name = "user")
      ∧ typeOf properties "user" = some .String
      ∧ declares properties "githubLogin" = false
      ∧ declares properties "processorTab" = false
      ∧ typeOf (WPTFlags base) "githubLogin" = some .Boolean
      ∧ typeOf (WPTFlags base) "processorTab" = some .Boolean
      ∧ typeOf (classProperties base) "githubLogin" = some .Boolean
      ∧ typeOf (classProperties base) "processorTab" = some .Boolean
      ∧ typeOf (classProperties base) "user" = some .String
      ∧ declares (assign base properties) "githubLogin" = declares base "githubLogin"
      ∧ declares (assign base properties) "processorTab" = declares base "processorTab" := by
  refine ⟨rfl, rfl, ?_, rfl, rfl, rfl, ?_, ?_, ?_, ?_, ?_, ?_, ?_⟩
  · intro name
    by_cases hname : name = "user"
    · subst hname
      simp [declares, properties, typeOf]
    · have hne : ¬ "user" = name := fun h => hname h.symm
      simp [declares, properties, typeOf, hname, hne]
  all_goals
    simp [classProperties, WPTFlags, assign, properties, declares, typeOf_setProperty]

/-- C9: the links of the navigation bar are, in order, Latest Run, Recent
Runs, Insights, Processor, About and GitHub Source when `processorTab` is
truthy, and the same without Processor when it is falsy: the first list is
the second with the `/status` link inserted after the third link, `/insights`,
and before `/about`, and removing that link from it gives back the second. -/
theorem nav_links_order (githubLogin processorTab user githubLogin2 processorTab2 user2 : JSValue)
    (hon : processorTab.truthy = true) (hoff : processorTab2.truthy = false) :
    navLinks (render ⟨githubLogin, processorTab, user⟩)
        = [anchor "/" "Latest Run", anchor "/runs" "Recent Runs", anchor "/insights" "Insights",
            anchor "/status" "Processor", anchor "/about" "About",
            anchor "https://github.com/web-platform-tests/wpt.fyi" "GitHub Source"]
      ∧ navLinks (render ⟨githubLogin2, processorTab2, user2⟩)
        = [anchor "/" "Latest Run", anchor "/runs" "Recent Runs", anchor "/insights" "Insights",
            anchor "/about" "About",
            anchor "https://github.com/web-platform-tests/wpt.fyi" "GitHub Source"]
      ∧ navLinks (render ⟨githubLogin, processorTab, user⟩)
        = (navLinks (render ⟨githubLogin2, processorTab2, user2⟩)).take 3
            ++ [anchor "/status" "Processor"]
            ++ (navLinks (render ⟨githubLogin2, processorTab2, user2⟩)).drop 3
      ∧ (navLinks (render ⟨githubLogin, processorTab, user⟩)).filter
            (fun d => !d.isLinkTo "/status")
        = navLinks (render ⟨githubLogin2, processorTab2, user2⟩) := by
  rw [navLinks_render, navLinks_render]
  simp only [hon, hoff]
  exact ⟨rfl, rfl, rfl, rfl⟩

/-- Witness of C9: the flag set to `true` against the flag left undefined. -/
theorem nav_links_order_witness :
    (JSValue.boolean true).truthy = true ∧ JSValue.undefined.truthy = false
      ∧ navLinks (render ⟨.undefined, .boolean true, .undefined⟩)
        = (navLinks (render ⟨.undefined, .undefined, .undefined⟩)).take 3
            ++ [anchor "/status" "Processor"]
            ++ (navLinks (render ⟨.undefined, .undefined, .undefined⟩)).drop 3 :=
  ⟨rfl, rfl, (nav_links_order .undefined (.boolean true) .undefined .undefined .undefined
    .undefined rfl rfl).2.2.1⟩

/-- C10 as stated fails: with `processorTab` set, the output with its
`/status` link removed is not the output with `processorTab` unset: the two
text nodes of white space written around the link in its `dom-if` are stamped
with it, and the navigation bar keeps sixteen nodes against fourteen. -/
theorem status_branch_leaves_layout_text :
    pruneAll (Dom.isLinkTo "/status") (render ⟨.boolean false, .boolean true, .undefined⟩)
        ≠ pruneAll (Dom.isLinkTo "/status")
            (render ⟨.boolean false, .boolean false, .undefined⟩)
      ∧ (navContent (pruneAll (Dom.isLinkTo "/status")
            (render ⟨.boolean false, .boolean true, .undefined⟩))).length = 16
      ∧ (navContent (pruneAll (Dom.isLinkTo "/status")
            (render ⟨.boolean false, .boolean false, .undefined⟩))).length = 14 := by
  have hon : (navContent (pruneAll (Dom.isLinkTo "/status")
      (render ⟨.boolean false, .boolean true, .undefined⟩))).length = 16 := by decide
  have hoff : (navContent (pruneAll (Dom.isLinkTo "/status")
      (render ⟨.boolean false, .boolean false, .undefined⟩))).length = 14 := by decide
  refine ⟨?_, hon, hoff⟩
  intro hsame
  rw [hsame, hoff] at hon
  exact absurd hon (by decide)

/-- C10, amended: when `githubLogin` is falsy the output is the same for any two
values of `user`, and in every case the outputs for two values of `user` are
the same once the `gh-login` widgets are removed.  The output depends on
`processorTab` through its truthiness only; two outputs that differ in
`processorTab` alone are the same outside the navigation bar, and the same
everywhere once the `/status` links and the layout text (text nodes of white
space) are removed; the content of the navigation bar with the flag truthy
is the content with the flag falsy with the stamped branch, the `/status`
link between its two layout text nodes, inserted; and with the flag falsy
there is no `/status` link to remove. -/
theorem flags_independent (githubLogin processorTab processorTab2 user user2 : JSValue) :
    (githubLogin.truthy = false →
        render ⟨githubLogin, processorTab, user⟩ = render ⟨githubLogin, processorTab, user2⟩)
      ∧ pruneAll (Dom.hasTag "gh-login") (render ⟨githubLogin, processorTab, user⟩)
          = pruneAll (Dom.hasTag "gh-login") (render ⟨githubLogin, processorTab, user2⟩)
      ∧ (processorTab.truthy = processorTab2.truthy →
          render ⟨githubLogin, processorTab, user⟩ = render ⟨githubLogin, processorTab2, user⟩)
      ∧ pruneAll (Dom.hasTag "nav") (render ⟨githubLogin, processorTab, user⟩)
          = pruneAll (Dom.hasTag "nav") (render ⟨githubLogin, processorTab2, user⟩)
      ∧ pruneAll Dom.isLayoutText
            (pruneAll (Dom.isLinkTo "/status") (render ⟨githubLogin, processorTab, user⟩))
          = pruneAll Dom.isLayoutText
            (pruneAll (Dom.isLinkTo "/status") (render ⟨githubLogin, processorTab2, user⟩))
      ∧ (processorTab.truthy = true → processorTab2.truthy = false →
          navContent (render ⟨githubLogin, processorTab, user⟩)
            = (navContent (render ⟨githubLogin, processorTab2, user⟩)).take 9
                ++ [.text "\n          ", anchor "/status" "Processor", .text "\n        "]
                ++ (navContent (render ⟨githubLogin, processorTab2, user⟩)).drop 9)
      ∧ (processorTab.truthy = false →
          pruneAll (Dom.isLinkTo "/status") (render ⟨githubLogin, processorTab, user⟩)
            = render ⟨githubLogin, processorTab, user⟩) := by
  refine ⟨render_login_off _ _ _ _, pruneAll_ghLogin_user _ _ _ _, ?_,
    pruneAll_nav_processorTab _ _ _ _, pruneAll_status_processorTab _ _ _ _,
    navContent_processorTab _ _ _ _, pruneAll_status_off _ _ _⟩
  intro hsame
  rw [render_flags githubLogin processorTab user, render_flags githubLogin processorTab2 user,
    hsame]

/-- Witness of C10: two users with the login flag off, and the processor flag
set against the flag left undefined. -/
theorem flags_independent_witness :
    (JSValue.boolean false).truthy = false
      ∧ (JSValue.boolean true).truthy = true
      ∧ JSValue.undefined.truthy = false
      ∧ render ⟨.boolean false, .boolean true, .string "octocat"⟩
          = render ⟨.boolean false, .boolean true, .null⟩
      ∧ navContent (render ⟨.boolean false, .boolean true, .string "octocat"⟩)
          = (navContent (render ⟨.boolean false, .undefined, .string "octocat"⟩)).take 9
              ++ [.text "\n          ", anchor "/status" "Processor", .text "\n        "]
              ++ (navContent (render ⟨.boolean false, .undefined, .string "octocat"⟩)).drop 9 :=
  ⟨rfl, rfl, rfl,
    (flags_independent (.boolean false) (.boolean true) .undefined (.string "octocat") .null).1
      rfl,
    (flags_independent (.boolean false) (.boolean true) .undefined (.string "octocat")
      .null).2.2.2.2.2.1 rfl rfl⟩

end WPTHeader

end WPT
